import Mathlib

/-!
Verification development for the retsnoop call-stack tracking and
reconstruction engine.  The definitions below are a shallow embedding of
the two source files: the BPF-side per-CPU call-stack automaton
(`src/retsnoop.bpf.c`) and the consumer-side reconstruction and filtering
pipeline (`src/retsnoop.c`).  Machine integers are modelled as `Nat`
(unsigned registers) or `Int` (signed values) with explicit `% 2^w` where
wrap-around semantics matter.  Per-CPU arrays indexed by depth are
modelled as total functions `Nat → _`; the source's fixed-size arrays are
read only below the relevant bounds.
-/

/-- Modelled from the spec: `MAX_DEPTH` (`MAX_FSTACK_DEPTH` in the source) is
the fixed maximum call-stack depth.  Its numeric value lives in the
`retsnoop.h` header, which is not part of the two source files; the spec only
requires it to be a fixed positive bound, and none of the claims depend on
the concrete value. -/
def MAX_FSTACK_DEPTH : Nat := 64

/-- Modelled from the spec: the bounded errno range covered by the allow/deny
bitsets (`MAX_ERR_CNT` in the source header).  The spec's errno space is
`[-4095, -1]` (`MAX_ERRNO = 4095` in `retsnoop.bpf.c`), giving 4096 slots. -/
def MAX_ERR_CNT : Nat := 4096

/-- Modelled from the spec: maximum number of tracked functions
(`MAX_FUNC_CNT` in the source header); the source indexes the function
tables with `id & MAX_FUNC_MASK`. -/
def MAX_FUNC_CNT : Nat := 4096

def MAX_FUNC_MASK : Nat := MAX_FUNC_CNT - 1

/-- `#define MAX_ERRNO 4095` from `retsnoop.bpf.c`. -/
def MAX_ERRNO : Nat := 4095

/-- Function-flags bitset from the spec's `FunctionInfo`
(IS_ENTRY, CANT_FAIL, NEEDS_SIGN_EXTENSION, RETURNS_POINTER, RETURNS_BOOL,
RETURNS_VOID); the source tests the corresponding `FUNC_*` bits of an `int`
flags word, whose numeric bit values live in the missing header.  A record of
six booleans models the bitset faithfully for every flag test in the two
source files. -/
structure FuncFlags where
  is_entry : Bool
  cant_fail : Bool
  needs_sign_ext : Bool
  ret_ptr : Bool
  ret_bool : Bool
  ret_void : Bool
deriving DecidableEq

/-- Interpret the low 32 bits of a raw register value as a signed 32-bit
integer (C's `(long)(int)x` on a value truncated to `int`). -/
def toInt32 (x : Nat) : Int :=
  if x % 2 ^ 32 < 2 ^ 31 then (x % 2 ^ 32 : Int) else (x % 2 ^ 32 : Int) - 2 ^ 32

/-- Interpret a raw 64-bit register value as a signed 64-bit integer
(C's `long`). -/
def toInt64 (x : Nat) : Int :=
  if x % 2 ^ 64 < 2 ^ 63 then (x % 2 ^ 64 : Int) else (x % 2 ^ 64 : Int) - 2 ^ 64

/-- `IS_ERR_VALUE(x)` from `retsnoop.bpf.c` line 188: true iff the unsigned
64-bit value is `≥ (unsigned long)-MAX_ERRNO = 2^64 - 4095`. -/
def IS_ERR_VALUE (x : Nat) : Bool :=
  decide (2 ^ 64 - MAX_ERRNO ≤ x % 2 ^ 64)

/-- `IS_ERR_VALUE32(x)` from `retsnoop.bpf.c` lines 193-210.  Note that the
source compares the full `u64` argument against `[0xfffff001, 0xffffffff]`;
it does not mask to the low 32 bits (it assumes a 32-bit return value was
zero-extended into the register). -/
def IS_ERR_VALUE32 (x : Nat) : Bool :=
  if x % 2 ^ 64 < 0xfffff001 then false
  else if 0xffffffff < x % 2 ^ 64 then false
  else true

/-- The failure classification performed by `handle_func_exit`
(`retsnoop.bpf.c` lines 212-229) given a function's flags and the raw 64-bit
return register value. -/
def exit_failed (flags : FuncFlags) (ret : Nat) : Bool :=
  if flags.cant_fail = true then false
  else
    let failed := if flags.needs_sign_ext = true then IS_ERR_VALUE32 ret else IS_ERR_VALUE ret
    if flags.ret_ptr = true ∧ ret % 2 ^ 64 = 0 then true else failed

/-- `struct call_stack`, the per-CPU automaton state, with the fields used by
the two source files: `depth`, `max_depth`, the per-depth `func_ids` /
`func_res` / `func_lat` arrays, the `is_err` flag, the stitched
(`saved_*`) segment, and the captured raw-kernel-stack length `kstack_sz`.
Presentation-only metadata (pid, comm, timestamps, the raw `kstack` address
array, LBR data) is not referenced by any claim and is omitted. -/
structure CallStack where
  depth : Nat
  max_depth : Nat
  func_ids : Nat → Nat
  func_res : Nat → Nat
  func_lat : Nat → Nat
  is_err : Bool
  saved_depth : Nat
  saved_max_depth : Nat
  saved_ids : Nat → Nat
  saved_res : Nat → Nat
  saved_lat : Nat → Nat
  kstack_sz : Int

/-- `save_stitch_stack` from `retsnoop.bpf.c` lines 35-64: copy the whole
primary frame window into the saved (stitched) holding area and record its
span.  Both branches of the source's `if` perform the identical copy and
assignments (they differ only in a verbose log message), so the embedding
is a single unconditional copy. -/
def save_stitch_stack (s : CallStack) : CallStack :=
  { s with
    saved_ids := s.func_ids
    saved_res := s.func_res
    saved_lat := s.func_lat
    saved_depth := s.depth + 1
    saved_max_depth := s.max_depth }

/-- Result of `push_call_stack`: the new automaton state, whether the entry
was accepted (the C function's boolean result), and whether
`save_stitch_stack` ran (instrumentation used to state the stitching
claims). -/
structure PushResult where
  st : CallStack
  ok : Bool
  stitched : Bool

/-- `push_call_stack` from `retsnoop.bpf.c` lines 66-98.  `now` stands for
the `bpf_ktime_get_ns()` value stored as the frame's entry timestamp. -/
def push_call_stack (ff : Nat → FuncFlags) (s : CallStack) (i : Nat) (now : Nat) : PushResult :=
  let d := s.depth
  if d = 0 ∧ (ff (i &&& MAX_FUNC_MASK)).is_entry = false then ⟨s, false, false⟩
  else if MAX_FSTACK_DEPTH ≤ d then ⟨s, false, false⟩
  else
    let doStitch := s.depth ≠ s.max_depth ∧ s.is_err = true
    let s1 := if doStitch then save_stitch_stack s else s
    ⟨{ s1 with
        func_ids := Function.update s1.func_ids d i
        is_err := false
        depth := d + 1
        max_depth := d + 1
        func_lat := Function.update s1.func_lat d now },
      true, decide doStitch⟩

/-- Result of `pop_call_stack`: the new automaton state, the snapshot handed
to `bpf_ringbuf_output` when an event is emitted (the state as it is at the
moment of the output call, before the post-emission reset), and the C
function's boolean result. -/
structure PopResult where
  st : CallStack
  emitted : Option CallStack
  ret : Bool

/-- `pop_call_stack` from `retsnoop.bpf.c` lines 101-178.  `now` stands for
the `bpf_ktime_get_ns()` exit timestamp and `kst` for the value
`bpf_get_stack` stores into `kstack_sz` on first failure capture. -/
def pop_call_stack (s : CallStack) (i : Nat) (res : Nat) (failed : Bool)
    (now : Nat) (kst : Int) : PopResult :=
  if s.depth = 0 then ⟨s, none, false⟩
  else
    let d := s.depth - 1
    if MAX_FSTACK_DEPTH ≤ d then ⟨s, none, false⟩
    else if s.func_ids d ≠ i then
      ⟨{ s with depth := 0, max_depth := 0, is_err := false, kstack_sz := 0 }, none, false⟩
    else
      let s1 := { s with
                  func_res := Function.update s.func_res d res
                  func_lat := Function.update s.func_lat d (now - s.func_lat d) }
      let s2 := if failed = true ∧ s1.is_err = false then
                  { s1 with is_err := true, max_depth := d + 1, kstack_sz := kst }
                else s1
      let s3 := { s2 with depth := d }
      if d = 0 then
        ⟨{ s3 with
            is_err := false
            saved_depth := 0
            saved_max_depth := 0
            depth := 0
            max_depth := 0
            kstack_sz := 0 },
          some s3, true⟩
      else ⟨s3, none, true⟩

/-- `handle_func_entry` from `retsnoop.bpf.c` lines 180-184: push, ignoring
the boolean result. -/
def handle_func_entry (ff : Nat → FuncFlags) (s : CallStack) (i : Nat) (now : Nat) : PushResult :=
  push_call_stack ff s i now

/-- `handle_func_exit` from `retsnoop.bpf.c` lines 212-233: classify the raw
return value using the function's flags, then pop. -/
def handle_func_exit (ff : Nat → FuncFlags) (s : CallStack) (i : Nat) (ret : Nat)
    (now : Nat) (kst : Int) : PopResult :=
  pop_call_stack s i ret (exit_failed (ff (i &&& MAX_FUNC_MASK)) ret) now kst

/-- The consumer-side configuration relevant to error filtering and event
handling: the `env` fields of `retsnoop.c` read by `should_report_stack` and
`handle_event`.  The errno bitsets are arrays of 64-bit words, modelled as
functions from word index to word value. -/
structure Env where
  has_error_filter : Bool
  allow_error_cnt : Nat
  allow_error_mask : Nat → Nat
  deny_error_mask : Nat → Nat
  emit_success_stacks : Bool

/-- The state of `env` when argument parsing starts: the designated
initializer of `env` zeroes both masks and counters, and `main`
(`retsnoop.c` line 1512) then sets the allow mask to all ones
(`memset(env.allow_error_mask, 0xFF, ...)`) before `argp_parse` runs. -/
def initEnv : Env where
  has_error_filter := false
  allow_error_cnt := 0
  allow_error_mask := fun _ => 2 ^ 64 - 1
  deny_error_mask := fun _ => 0
  emit_success_stacks := false

/-- `err_mask_set` from `retsnoop.c` lines 405-408:
`err_mask[err_value / 64] |= 1ULL << (err_value % 64)`. -/
def err_mask_set (mask : Nat → Nat) (err_value : Nat) : Nat → Nat :=
  Function.update mask (err_value / 64) (mask (err_value / 64) ||| (1 <<< (err_value % 64)))

/-- The `case 'x'` branch of `parse_arg` (`retsnoop.c` lines 544-557): on the
first allow-rule the allow mask is reset to empty, then the rule's errno bit
is set and the error filter is switched on. -/
def addAllowError (env : Env) (err : Nat) : Env :=
  let env1 := if env.allow_error_cnt = 0 then { env with allow_error_mask := fun _ => 0 } else env
  { env1 with
    allow_error_cnt := env1.allow_error_cnt + 1
    has_error_filter := true
    allow_error_mask := err_mask_set env1.allow_error_mask err }

/-- The `case 'X'` branch of `parse_arg` (`retsnoop.c` lines 558-568): set
the errno bit in the deny mask and switch the error filter on. -/
def addDenyError (env : Env) (err : Nat) : Env :=
  { env with
    has_error_filter := true
    deny_error_mask := err_mask_set env.deny_error_mask err }

/-- `is_err_in_mask` from `retsnoop.c` lines 762-769: negative errno values
are replaced by their absolute value, out-of-range values never match, and
otherwise bit `err % 64` of word `err / 64` is tested.  (The C parameter is
`int`; negation of the one unrepresentable value `INT_MIN` is undefined
behaviour in C and is modelled as exact integer negation.) -/
def is_err_in_mask (mask : Nat → Nat) (err : Int) : Bool :=
  let e : Nat := err.natAbs
  if MAX_ERR_CNT ≤ e then false
  else decide ((mask (e / 64) >>> (e % 64)) &&& 1 = 1)

/-- The per-frame eligibility test shared by both loops of
`should_report_stack` (`retsnoop.c` lines 780-801 and 808-829): frames of
`CANT_FAIL` functions are skipped, the result is truncated to a signed
32-bit `int` (the local `res` has type `int`, so the source's subsequent
`res = (long)(int)res` for sign-extended functions is a no-op), and frames
whose result is zero are skipped unless the function returns a pointer.
Returns the normalized error value of an eligible frame. -/
def frame_err_res (ff : Nat → FuncFlags) (p : Nat × Nat) : Option Int :=
  let flags := ff p.1
  if flags.cant_fail = true then none
  else
    let res := toInt32 p.2
    if res = 0 ∧ flags.ret_ptr = false then none else some res

/-- The loop body of `should_report_stack`: scan frames left to right,
rejecting the whole stack immediately on a deny-mask hit and accumulating
whether any allow-mask hit occurred. -/
def scanStack (env : Env) (ff : Nat → FuncFlags) : List (Nat × Nat) → Bool → Bool
  | [], allowed => allowed
  | p :: rest, allowed =>
    match frame_err_res ff p with
    | none => scanStack env ff rest allowed
    | some res =>
      if is_err_in_mask env.deny_error_mask res then false
      else scanStack env ff rest (allowed || is_err_in_mask env.allow_error_mask res)

/-- The (function id, raw result word) pairs scanned by
`should_report_stack`: the primary frames `0 ≤ i < max_depth`, followed —
when the stitched segment is contiguous (`max_depth + 1 == saved_depth`) —
by the stitched frames `saved_depth - 1 ≤ i < saved_max_depth`.  NOTE: the
source's stitched loop (`retsnoop.c` line 815) reads `s->func_res[i]`, the
primary result array, not `s->saved_res[i]`; the embedding reproduces
this. -/
def scanned_frames (s : CallStack) : List (Nat × Nat) :=
  let primary := (List.range s.max_depth).map (fun i => (s.func_ids i, s.func_res i))
  if s.max_depth + 1 ≠ s.saved_depth then primary
  else
    primary ++
      (List.range' (s.saved_depth - 1) (s.saved_max_depth - (s.saved_depth - 1))).map
        (fun i => (s.saved_ids i, s.func_res i))

/-- `should_report_stack` from `retsnoop.c` lines 771-833.  With no error
filter configured it accepts immediately; otherwise both frame loops are the
single left-to-right scan `scanStack` over `scanned_frames` (a deny hit in
the first loop short-circuits past the second loop, and a short-circuited
scan of the concatenation returns `false` identically). -/
def should_report_stack (env : Env) (ff : Nat → FuncFlags) (s : CallStack) : Bool :=
  if env.has_error_filter = false then true
  else scanStack env ff (scanned_frames s) false

/-- Modelled from the spec: the variant of `should_report_stack` that tests
each stitched frame against "that stitched frame's own saved result (the
stitched segment's recorded return values)", i.e. reads `saved_res[i]`
where the source reads `func_res[i]`.  Used to exhibit the divergence of
the source from the spec's words. -/
def scanned_frames_spec (s : CallStack) : List (Nat × Nat) :=
  let primary := (List.range s.max_depth).map (fun i => (s.func_ids i, s.func_res i))
  if s.max_depth + 1 ≠ s.saved_depth then primary
  else
    primary ++
      (List.range' (s.saved_depth - 1) (s.saved_max_depth - (s.saved_depth - 1))).map
        (fun i => (s.saved_ids i, s.saved_res i))

/-- Modelled from the spec: `should_report_stack` as the spec describes it,
differing from the source only in reading the stitched segment's own saved
results. -/
def should_report_stack_spec (env : Env) (ff : Nat → FuncFlags) (s : CallStack) : Bool :=
  if env.has_error_filter = false then true
  else scanStack env ff (scanned_frames_spec s) false

/-- `struct fstack_item` from `retsnoop.c` lines 752-760, with the function
identified by its id (the source stores the `finfo` pointer and name
obtained from the id via `mass_attacher__func`, an external collaborator). -/
structure FstackItem where
  fid : Nat
  res : Int
  lat : Nat
  finished : Bool
  stitched : Bool
deriving DecidableEq

/-- `filter_fstack` from `retsnoop.c` lines 835-891: the primary frames
`0 ≤ i < max_depth` (the source sets `finished` to `i >= s->depth`, and its
final unconditional `fitem->lat = s->func_lat[i]` overrides the `lat = 0` of
the unfinished branch), followed by the stitched frames when the stitched
segment is contiguous, all finished and marked stitched, carrying the saved
results and latencies. -/
def filter_fstack (ff : Nat → FuncFlags) (s : CallStack) : List FstackItem :=
  let primary := (List.range s.max_depth).map (fun i =>
    { fid := s.func_ids i
      res := if (ff (s.func_ids i)).needs_sign_ext = true
             then toInt32 (s.func_res i) else toInt64 (s.func_res i)
      lat := s.func_lat i
      finished := decide (s.depth ≤ i)
      stitched := false : FstackItem })
  if s.max_depth + 1 ≠ s.saved_depth then primary
  else
    primary ++
      (List.range' (s.saved_depth - 1) (s.saved_max_depth - (s.saved_depth - 1))).map
        (fun i =>
          { fid := s.saved_ids i
            res := if (ff (s.saved_ids i)).needs_sign_ext = true
                   then toInt32 (s.saved_res i) else toInt64 (s.saved_res i)
            lat := s.saved_lat i
            finished := true
            stitched := true : FstackItem })

/-- The event-dropping prefix of `handle_event` (`retsnoop.c` lines
1185-1189): `true` iff the decoded event proceeds to reconstruction and
output.  A success event is dropped unless success-stack emission is
configured; an error event consults the allow/deny filter. -/
def handle_event_decision (env : Env) (ff : Nat → FuncFlags) (s : CallStack) : Bool :=
  if s.is_err = false ∧ env.emit_success_stacks = false then false
  else if s.is_err = true ∧ env.has_error_filter = true ∧
          should_report_stack env ff s = false then false
  else true

/-- An entry or exit probe firing, as delivered to `handle_func_entry` /
`handle_func_exit` on one CPU. -/
inductive FOp : Type where
  | ent (i : Nat)
  | ext (i : Nat) (ret : Nat)

/-- Result of running a sequence of probe firings on one automaton: the
final state, the emitted event snapshots in order, the number of operations
after which `depth` is 0, and the number of `save_stitch_stack`
invocations. -/
structure RunOut where
  st : CallStack
  emits : List CallStack
  zeros : Nat
  stitches : Nat

/-- Run a sequence of probe firings through the automaton.  Timer and
raw-stack-capture inputs are fixed (`now = 0`, `kst = 1`); no claim depends
on their values. -/
def runOps (ff : Nat → FuncFlags) (s : CallStack) : List FOp → RunOut
  | [] => ⟨s, [], 0, 0⟩
  | FOp.ent i :: rest =>
    let p := push_call_stack ff s i 0
    let r := runOps ff p.st rest
    ⟨r.st, r.emits, (if p.st.depth = 0 then 1 else 0) + r.zeros,
      (if p.stitched then 1 else 0) + r.stitches⟩
  | FOp.ext i ret :: rest =>
    let q := handle_func_exit ff s i ret 0 1
    let r := runOps ff q.st rest
    ⟨r.st, q.emitted.toList ++ r.emits, (if q.st.depth = 0 then 1 else 0) + r.zeros,
      r.stitches⟩

theorem runOps_append (ff : Nat → FuncFlags) (a b : List FOp) :
    ∀ s : CallStack, runOps ff s (a ++ b) =
      { st := (runOps ff (runOps ff s a).st b).st
        emits := (runOps ff s a).emits ++ (runOps ff (runOps ff s a).st b).emits
        zeros := (runOps ff s a).zeros + (runOps ff (runOps ff s a).st b).zeros
        stitches := (runOps ff s a).stitches + (runOps ff (runOps ff s a).st b).stitches } := by
  induction a with
  | nil => intro s; simp [runOps]
  | cons op rest ih =>
    intro s
    cases op with
    | ent i => simp [runOps, ih, Nat.add_assoc]
    | ext i ret => simp [runOps, ih, Nat.add_assoc, List.append_assoc]

theorem push_accepted_fields (ff : Nat → FuncFlags) (s : CallStack) (i now : Nat)
    (hna : ¬(s.depth = 0 ∧ (ff (i &&& MAX_FUNC_MASK)).is_entry = false))
    (h2 : s.depth < MAX_FSTACK_DEPTH) :
    (push_call_stack ff s i now).st.depth = s.depth + 1 ∧
    (push_call_stack ff s i now).st.max_depth = s.depth + 1 ∧
    (push_call_stack ff s i now).st.is_err = false ∧
    (push_call_stack ff s i now).st.func_ids = Function.update s.func_ids s.depth i ∧
    (push_call_stack ff s i now).ok = true := by
  simp only [push_call_stack]
  rw [if_neg hna, if_neg (Nat.not_le.mpr h2)]
  split <;> simp [save_stitch_stack]

theorem push_rejected (ff : Nat → FuncFlags) (s : CallStack) (i now : Nat)
    (h : (s.depth = 0 ∧ (ff (i &&& MAX_FUNC_MASK)).is_entry = false) ∨
         MAX_FSTACK_DEPTH ≤ s.depth) :
    push_call_stack ff s i now = ⟨s, false, false⟩ := by
  rcases h with h | h
  · simp [push_call_stack, h]
  · by_cases h1 : s.depth = 0 ∧ (ff (i &&& MAX_FUNC_MASK)).is_entry = false
    · simp [push_call_stack, h1]
    · simp [push_call_stack, h1, h]

theorem push_saved_of_not_stitched (ff : Nat → FuncFlags) (s : CallStack) (i now : Nat)
    (h : (push_call_stack ff s i now).stitched = false) :
    (push_call_stack ff s i now).st.saved_depth = s.saved_depth ∧
    (push_call_stack ff s i now).st.saved_max_depth = s.saved_max_depth ∧
    (push_call_stack ff s i now).st.saved_ids = s.saved_ids ∧
    (push_call_stack ff s i now).st.saved_res = s.saved_res ∧
    (push_call_stack ff s i now).st.saved_lat = s.saved_lat := by
  simp only [push_call_stack] at h ⊢
  by_cases h1 : s.depth = 0 ∧ (ff (i &&& MAX_FUNC_MASK)).is_entry = false
  · simp [h1]
  · simp only [if_neg h1] at h ⊢
    by_cases h2 : MAX_FSTACK_DEPTH ≤ s.depth
    · simp [h2]
    · simp only [if_neg h2] at h ⊢
      by_cases h3 : s.depth ≠ s.max_depth ∧ s.is_err = true
      · simp [h3] at h
      · simp [h3]

theorem pop_depth_zero (s : CallStack) (i res : Nat) (failed : Bool) (now : Nat) (kst : Int)
    (h : s.depth = 0) :
    pop_call_stack s i res failed now kst = ⟨s, none, false⟩ := by
  simp [pop_call_stack, h]

theorem pop_mismatch (s : CallStack) (i res : Nat) (failed : Bool) (now : Nat) (kst : Int)
    (h0 : s.depth ≠ 0) (hd : s.depth - 1 < MAX_FSTACK_DEPTH)
    (hid : s.func_ids (s.depth - 1) ≠ i) :
    pop_call_stack s i res failed now kst =
      ⟨{ s with depth := 0, max_depth := 0, is_err := false, kstack_sz := 0 },
        none, false⟩ := by
  simp [pop_call_stack, h0, Nat.not_le.mpr hd, hid]

theorem pop_match_inner (s : CallStack) (i res : Nat) (failed : Bool) (now : Nat) (kst : Int)
    (h0 : s.depth ≠ 0) (hd : s.depth - 1 < MAX_FSTACK_DEPTH)
    (hid : s.func_ids (s.depth - 1) = i) (hne : s.depth - 1 ≠ 0) :
    (pop_call_stack s i res failed now kst).st.depth = s.depth - 1 ∧
    (pop_call_stack s i res failed now kst).st.func_ids = s.func_ids ∧
    (pop_call_stack s i res failed now kst).emitted = none ∧
    (pop_call_stack s i res failed now kst).ret = true ∧
    (pop_call_stack s i res failed now kst).st.saved_depth = s.saved_depth ∧
    (pop_call_stack s i res failed now kst).st.saved_max_depth = s.saved_max_depth ∧
    (pop_call_stack s i res failed now kst).st.saved_ids = s.saved_ids ∧
    (pop_call_stack s i res failed now kst).st.saved_res = s.saved_res ∧
    (pop_call_stack s i res failed now kst).st.saved_lat = s.saved_lat := by
  simp only [pop_call_stack, if_neg h0, if_neg (Nat.not_le.mpr hd), hid, ne_eq,
    not_true_eq_false, if_false, if_neg hne]
  split <;> simp [hne]

theorem pop_match_emit (s : CallStack) (i res : Nat) (failed : Bool) (now : Nat) (kst : Int)
    (h0 : s.depth ≠ 0) (hd : s.depth - 1 < MAX_FSTACK_DEPTH)
    (hid : s.func_ids (s.depth - 1) = i) (heq : s.depth - 1 = 0) :
    ∃ e : CallStack,
      (pop_call_stack s i res failed now kst).emitted = some e ∧
      e.saved_depth = s.saved_depth ∧
      e.saved_max_depth = s.saved_max_depth ∧
      e.saved_ids = s.saved_ids ∧
      e.saved_res = s.saved_res ∧
      e.saved_lat = s.saved_lat ∧
      e.depth = 0 ∧
      (pop_call_stack s i res failed now kst).st.depth = 0 ∧
      (pop_call_stack s i res failed now kst).st.max_depth = 0 ∧
      (pop_call_stack s i res failed now kst).st.is_err = false ∧
      (pop_call_stack s i res failed now kst).st.saved_depth = 0 ∧
      (pop_call_stack s i res failed now kst).st.saved_max_depth = 0 ∧
      (pop_call_stack s i res failed now kst).st.kstack_sz = 0 := by
  have hid0 : s.func_ids 0 = i := by rw [← heq]; exact hid
  simp only [pop_call_stack, if_neg h0, heq, if_neg (by rw [heq] at hd; omega : ¬MAX_FSTACK_DEPTH ≤ 0),
    hid0, ne_eq, not_true_eq_false, if_false, if_pos rfl]
  split
  · split <;> simp
  · simp_all

theorem runOps_cons_ent (ff : Nat → FuncFlags) (s : CallStack) (i : Nat) (L : List FOp) :
    runOps ff s (FOp.ent i :: L) =
      ⟨(runOps ff (push_call_stack ff s i 0).st L).st,
       (runOps ff (push_call_stack ff s i 0).st L).emits,
       (if (push_call_stack ff s i 0).st.depth = 0 then 1 else 0) +
         (runOps ff (push_call_stack ff s i 0).st L).zeros,
       (if (push_call_stack ff s i 0).stitched then 1 else 0) +
         (runOps ff (push_call_stack ff s i 0).st L).stitches⟩ := rfl

theorem runOps_cons_ext (ff : Nat → FuncFlags) (s : CallStack) (i ret : Nat) (L : List FOp) :
    runOps ff s (FOp.ext i ret :: L) =
      ⟨(runOps ff (handle_func_exit ff s i ret 0 1).st L).st,
       (handle_func_exit ff s i ret 0 1).emitted.toList ++
         (runOps ff (handle_func_exit ff s i ret 0 1).st L).emits,
       (if (handle_func_exit ff s i ret 0 1).st.depth = 0 then 1 else 0) +
         (runOps ff (handle_func_exit ff s i ret 0 1).st L).zeros,
       (runOps ff (handle_func_exit ff s i ret 0 1).st L).stitches⟩ := rfl

/-- The post-emission reset state of the automaton: `pop_call_stack` clears
exactly these fields after handing the snapshot to the ring buffer. -/
def is_reset (s : CallStack) : Prop :=
  s.depth = 0 ∧ s.max_depth = 0 ∧ s.is_err = false ∧
  s.saved_depth = 0 ∧ s.saved_max_depth = 0 ∧ s.kstack_sz = 0

instance (s : CallStack) : Decidable (is_reset s) := by
  unfold is_reset; infer_instance

/-- Balanced probe-firing sequences at nesting level `n`: a concatenation of
entry/exit pairs with properly nested bodies, where every pair at level 0
starts at a function carrying the IS_ENTRY flag, each exit carries the same
function id as its matching entry, and the nesting never exceeds
`MAX_FSTACK_DEPTH`.  The second index counts the pairs at this level. -/
inductive Bal (ff : Nat → FuncFlags) : Nat → Nat → List FOp → Prop where
  | nil (n : Nat) : Bal ff n 0 []
  | pair (n m k i r : Nat) (body rest : List FOp)
      (hentry : n = 0 → (ff (i &&& MAX_FUNC_MASK)).is_entry = true)
      (hdep : n < MAX_FSTACK_DEPTH)
      (hbody : Bal ff (n + 1) k body)
      (hrest : Bal ff n m rest) :
      Bal ff n (m + 1) (FOp.ent i :: body ++ FOp.ext i r :: rest)

/-- Running a balanced sequence at a strictly positive nesting level from a
state at the matching depth returns to the same depth, preserves the
recorded frame ids below it, emits nothing, and never passes through
depth 0. -/
theorem runOps_bal_pos (ff : Nat → FuncFlags) {n k : Nat} {ops : List FOp}
    (h : Bal ff n k ops) :
    0 < n → ∀ s : CallStack, s.depth = n →
      (runOps ff s ops).st.depth = n ∧
      (∀ j, j < n → (runOps ff s ops).st.func_ids j = s.func_ids j) ∧
      (runOps ff s ops).emits = [] ∧
      (runOps ff s ops).zeros = 0 := by
  induction h with
  | nil n =>
    intro hn s hs
    exact ⟨hs, fun j _ => rfl, rfl, rfl⟩
  | pair n m k i r body rest hentry hdep hbody hrest ihbody ihrest =>
    intro hn s hs
    subst hs
    obtain ⟨hp1, hp2, hp3, hp4, hp5⟩ := push_accepted_fields ff s i 0
      (by rintro ⟨hz, -⟩; omega) hdep
    obtain ⟨hb1, hb2, hb3, hb4⟩ :=
      ihbody (Nat.succ_pos _) (push_call_stack ff s i 0).st hp1
    have hid : (runOps ff (push_call_stack ff s i 0).st body).st.func_ids s.depth = i := by
      rw [hb2 s.depth (Nat.lt_succ_self _), hp4, Function.update_same]
    obtain ⟨hq1, hq2, hq3, hq4, hq5, hq6, hq7, hq8, hq9⟩ :=
      pop_match_inner (runOps ff (push_call_stack ff s i 0).st body).st i r
        (exit_failed (ff (i &&& MAX_FUNC_MASK)) r) 0 1
        (by rw [hb1]; omega) (by rw [hb1, Nat.add_sub_cancel]; exact hdep)
        (by rw [hb1, Nat.add_sub_cancel]; exact hid) (by rw [hb1]; omega)
    have hq1' : (handle_func_exit ff
        (runOps ff (push_call_stack ff s i 0).st body).st i r 0 1).st.depth = s.depth := by
      rw [handle_func_exit, hq1, hb1]; omega
    obtain ⟨hr1, hr2, hr3, hr4⟩ :=
      ihrest hn (handle_func_exit ff
        (runOps ff (push_call_stack ff s i 0).st body).st i r 0 1).st hq1'
    simp only [List.cons_append] at *
    rw [runOps_cons_ent, runOps_append, runOps_cons_ext]
    refine ⟨hr1, ?_, ?_, ?_⟩
    · intro j hj
      rw [hr2 j hj]
      have : (handle_func_exit ff
          (runOps ff (push_call_stack ff s i 0).st body).st i r 0 1).st.func_ids =
          (runOps ff (push_call_stack ff s i 0).st body).st.func_ids := by
        rw [handle_func_exit, hq2]
      rw [this, hb2 j (by omega), hp4, Function.update_noteq (by omega)]
    · have : (handle_func_exit ff
          (runOps ff (push_call_stack ff s i 0).st body).st i r 0 1).emitted = none := by
        rw [handle_func_exit, hq3]
      simp [hb3, hr3, this]
    · simp [hp1, hb4, hr4, hq1']
      omega

/-- Running a balanced sequence of `m` top-level invocations from a reset
automaton state emits exactly `m` event snapshots, ends an operation at
depth 0 exactly `m` times (once per top-level pair), and leaves the
automaton reset again. -/
theorem runOps_bal_top (ff : Nat → FuncFlags) {n m : Nat} {ops : List FOp}
    (h : Bal ff n m ops) :
    n = 0 → ∀ s : CallStack, is_reset s →
      (runOps ff s ops).emits.length = m ∧
      (runOps ff s ops).zeros = m ∧
      is_reset (runOps ff s ops).st := by
  induction h with
  | nil n =>
    intro _ s hs
    exact ⟨rfl, rfl, hs⟩
  | pair n m k i r body rest hentry hdep hbody hrest ihbody ihrest =>
    intro hn s hs
    subst hn
    obtain ⟨hs1, hs2, hs3, hs4, hs5, hs6⟩ := hs
    obtain ⟨hp1, hp2, hp3, hp4, hp5⟩ := push_accepted_fields ff s i 0
      (by rintro ⟨-, hf⟩; rw [hentry rfl] at hf; cases hf) (by rw [hs1]; exact hdep)
    obtain ⟨hb1, hb2, hb3, hb4⟩ :=
      runOps_bal_pos ff hbody (Nat.succ_pos _) (push_call_stack ff s i 0).st
        (by rw [hp1, hs1])
    have hid : (runOps ff (push_call_stack ff s i 0).st body).st.func_ids 0 = i := by
      rw [hb2 0 (Nat.succ_pos _), hp4, hs1, Function.update_same]
    obtain ⟨e, he1, he2, he3, he4, he5, he6, he7, hst1, hst2, hst3, hst4, hst5, hst6⟩ :=
      pop_match_emit (runOps ff (push_call_stack ff s i 0).st body).st i r
        (exit_failed (ff (i &&& MAX_FUNC_MASK)) r) 0 1
        (by rw [hb1]; omega) (by rw [hb1]; decide)
        (by rw [hb1]; exact hid) (by rw [hb1])
    have hreset : is_reset (handle_func_exit ff
        (runOps ff (push_call_stack ff s i 0).st body).st i r 0 1).st :=
      ⟨hst1, hst2, hst3, hst4, hst5, hst6⟩
    obtain ⟨hr1, hr2, hr3⟩ :=
      ihrest rfl (handle_func_exit ff
        (runOps ff (push_call_stack ff s i 0).st body).st i r 0 1).st hreset
    simp only [List.cons_append] at *
    rw [runOps_cons_ent, runOps_append, runOps_cons_ext]
    have hemit : (handle_func_exit ff
        (runOps ff (push_call_stack ff s i 0).st body).st i r 0 1).emitted = some e := he1
    refine ⟨?_, ?_, hr3⟩
    · simp [hb3, hemit, hr1]
    · have hpz : (push_call_stack ff s i 0).st.depth ≠ 0 := by rw [hp1, hs1]; omega
      have hsz : (handle_func_exit ff
          (runOps ff (push_call_stack ff s i 0).st body).st i r 0 1).st.depth = 0 := hst1
      simp [hpz, hsz, hb4, hr2]
      omega

theorem pop_saved_of_no_emit (s : CallStack) (i res : Nat) (failed : Bool) (now : Nat)
    (kst : Int) (h : (pop_call_stack s i res failed now kst).emitted = none) :
    (pop_call_stack s i res failed now kst).st.saved_depth = s.saved_depth ∧
    (pop_call_stack s i res failed now kst).st.saved_max_depth = s.saved_max_depth ∧
    (pop_call_stack s i res failed now kst).st.saved_ids = s.saved_ids ∧
    (pop_call_stack s i res failed now kst).st.saved_res = s.saved_res ∧
    (pop_call_stack s i res failed now kst).st.saved_lat = s.saved_lat := by
  by_cases h0 : s.depth = 0
  · rw [pop_depth_zero s i res failed now kst h0]
    exact ⟨rfl, rfl, rfl, rfl, rfl⟩
  · by_cases h1 : MAX_FSTACK_DEPTH ≤ s.depth - 1
    · have heq : pop_call_stack s i res failed now kst = ⟨s, none, false⟩ := by
        simp [pop_call_stack, h0, h1]
      rw [heq]
      exact ⟨rfl, rfl, rfl, rfl, rfl⟩
    · by_cases h2 : s.func_ids (s.depth - 1) = i
      · by_cases h3 : s.depth - 1 = 0
        · obtain ⟨e, he, -⟩ :=
            pop_match_emit s i res failed now kst h0 (by omega) h2 h3
          rw [he] at h
          cases h
        · obtain ⟨-, -, -, -, k5, k6, k7, k8, k9⟩ :=
            pop_match_inner s i res failed now kst h0 (by omega) h2 h3
          exact ⟨k5, k6, k7, k8, k9⟩
      · rw [pop_mismatch s i res failed now kst h0 (by omega) h2]
        exact ⟨rfl, rfl, rfl, rfl, rfl⟩

theorem pop_emitted_saved (s : CallStack) (i res : Nat) (failed : Bool) (now : Nat)
    (kst : Int) (e : CallStack)
    (h : (pop_call_stack s i res failed now kst).emitted = some e) :
    e.saved_depth = s.saved_depth ∧
    e.saved_max_depth = s.saved_max_depth ∧
    e.saved_ids = s.saved_ids ∧
    e.saved_res = s.saved_res ∧
    e.saved_lat = s.saved_lat := by
  by_cases h0 : s.depth = 0
  · rw [pop_depth_zero s i res failed now kst h0] at h
    cases h
  · by_cases h1 : MAX_FSTACK_DEPTH ≤ s.depth - 1
    · have heq : pop_call_stack s i res failed now kst = ⟨s, none, false⟩ := by
        simp [pop_call_stack, h0, h1]
      rw [heq] at h
      cases h
    · by_cases h2 : s.func_ids (s.depth - 1) = i
      · by_cases h3 : s.depth - 1 = 0
        · obtain ⟨e0, he0, k2, k3, k4, k5, k6, -⟩ :=
            pop_match_emit s i res failed now kst h0 (by omega) h2 h3
          rw [he0] at h
          injection h with h
          subst h
          exact ⟨k2, k3, k4, k5, k6⟩
        · obtain ⟨-, -, k3, -⟩ :=
            pop_match_inner s i res failed now kst h0 (by omega) h2 h3
          rw [k3] at h
          cases h
      · rw [pop_mismatch s i res failed now kst h0 (by omega) h2] at h
        cases h

/-- If a run performs no `save_stitch_stack` call, the first emitted event
snapshot carries exactly the saved (stitched) segment the automaton held at
the start of the run: no operation before the first emission modifies the
saved fields, and the emission snapshot is taken before the post-emission
reset. -/
theorem runOps_saved_retained (ff : Nat → FuncFlags) :
    ∀ (ops : List FOp) (s : CallStack), (runOps ff s ops).stitches = 0 →
      ∀ e : CallStack, (runOps ff s ops).emits.head? = some e →
        e.saved_depth = s.saved_depth ∧ e.saved_max_depth = s.saved_max_depth ∧
        e.saved_ids = s.saved_ids ∧ e.saved_res = s.saved_res ∧
        e.saved_lat = s.saved_lat := by
  intro ops
  induction ops with
  | nil =>
    intro s _ e he
    cases he
  | cons op rest ih =>
    intro s hst e he
    cases op with
    | ent i =>
      simp only [runOps_cons_ent] at hst he
      have h1 : (if (push_call_stack ff s i 0).stitched then 1 else 0) = 0 ∧
          (runOps ff (push_call_stack ff s i 0).st rest).stitches = 0 := by omega
      have hns : (push_call_stack ff s i 0).stitched = false := by
        rcases h1 with ⟨h1a, -⟩
        by_cases hb : (push_call_stack ff s i 0).stitched = true
        · rw [if_pos hb] at h1a
          cases h1a
        · simpa using hb
      obtain ⟨k1, k2, k3, k4, k5⟩ := push_saved_of_not_stitched ff s i 0 hns
      obtain ⟨m1, m2, m3, m4, m5⟩ := ih (push_call_stack ff s i 0).st h1.2 e he
      exact ⟨m1.trans k1, m2.trans k2, m3.trans k3, m4.trans k4, m5.trans k5⟩
    | ext i ret =>
      simp only [runOps_cons_ext] at hst he
      cases hemit : (handle_func_exit ff s i ret 0 1).emitted with
      | none =>
        rw [hemit] at he
        simp only [Option.toList_none, List.nil_append] at he
        obtain ⟨k1, k2, k3, k4, k5⟩ :=
          pop_saved_of_no_emit s i ret (exit_failed (ff (i &&& MAX_FUNC_MASK)) ret) 0 1 hemit
        obtain ⟨m1, m2, m3, m4, m5⟩ :=
          ih (handle_func_exit ff s i ret 0 1).st hst e he
        exact ⟨m1.trans k1, m2.trans k2, m3.trans k3, m4.trans k4, m5.trans k5⟩
      | some e0 =>
        rw [hemit] at he
        simp only [Option.toList_some, List.cons_append, List.head?_cons,
          Option.some.injEq] at he
        subst he
        exact pop_emitted_saved s i ret (exit_failed (ff (i &&& MAX_FUNC_MASK)) ret) 0 1 e0 hemit

/-- A function-flags value with every flag clear (an unknown-return-type
function that can fail). -/
def ffZero : Nat → FuncFlags := fun _ => ⟨false, false, false, false, false, false⟩

/-- A fully zeroed automaton state (the initial per-CPU state: the global
`stacks` array starts zero-initialized). -/
def zeroStack : CallStack where
  depth := 0
  max_depth := 0
  func_ids := fun _ => 0
  func_res := fun _ => 0
  func_lat := fun _ => 0
  is_err := false
  saved_depth := 0
  saved_max_depth := 0
  saved_ids := fun _ => 0
  saved_res := fun _ => 0
  saved_lat := fun _ => 0
  kstack_sz := 0

/-- C1 (counterexample): the claim states that for a NEEDS_SIGN_EXTENSION
function (CANT_FAIL clear) the Exit classification tests the low 32 bits of
the raw return value, and in particular classifies raw value
0xFFFFFFFFFFFFFFFE (low 32 bits 0xFFFFFFFE, i.e. -2) as failed.  The source's
`IS_ERR_VALUE32` compares the full 64-bit value against
[0xFFFFF001, 0xFFFFFFFF], so this value — whose low 32 bits are in the
claimed range — is classified as NOT failed. -/
theorem C1_counterexample :
    (FuncFlags.mk false false true false false false).needs_sign_ext = true ∧
    (FuncFlags.mk false false true false false false).cant_fail = false ∧
    0xfffff001 ≤ 0xFFFFFFFFFFFFFFFE % 2 ^ 32 ∧
    0xFFFFFFFFFFFFFFFE % 2 ^ 32 ≤ 0xffffffff ∧
    exit_failed (FuncFlags.mk false false true false false false) 0xFFFFFFFFFFFFFFFE
      = false := by
  decide

/-- C1 (amended): for every function whose flags contain NEEDS_SIGN_EXTENSION
and not CANT_FAIL, the Exit failure classification reports failure exactly
when the full 64-bit raw return value lies in [0xFFFFF001, 0xFFFFFFFF] (the
low 32 bits are in the errno range AND the high 32 bits are zero), or the
flags also contain RETURNS_POINTER and the raw value is 0; in particular
raw_result = 0xFFFFFFFFFFFFFFFE is classified as NOT failed. -/
theorem C1_theorem (fl : FuncFlags) (ret : Nat)
    (h1 : fl.needs_sign_ext = true) (h2 : fl.cant_fail = false) (h3 : ret < 2 ^ 64) :
    exit_failed fl ret = true ↔
      ((0xfffff001 ≤ ret ∧ ret ≤ 0xffffffff) ∨ (fl.ret_ptr = true ∧ ret = 0)) := by
  have hm : ret % 2 ^ 64 = ret := Nat.mod_eq_of_lt h3
  simp only [exit_failed, IS_ERR_VALUE32, h1, h2, hm, Bool.false_eq_true, if_false, if_true]
  split_ifs with hp ha hb <;> simp_all

/-- C1 (witness): instantiation of the amended claim at a
NEEDS_SIGN_EXTENSION-only flags value and raw value 0xFFFFF001. -/
theorem C1_theorem_witness :
    (0xfffff001 : Nat) < 2 ^ 64 ∧
    (exit_failed (FuncFlags.mk false false true false false false) 0xfffff001 = true ↔
      (((0xfffff001 : Nat) ≤ 0xfffff001 ∧ (0xfffff001 : Nat) ≤ 0xffffffff) ∨
       ((FuncFlags.mk false false true false false false).ret_ptr = true ∧
        (0xfffff001 : Nat) = 0))) :=
  ⟨by decide, C1_theorem (FuncFlags.mk false false true false false false) 0xfffff001
    rfl rfl (by decide)⟩

/-- A concrete decoded event with live depth 1 and max depth 2 (frame 0
still open, frame 1 completed), no stitched segment. -/
def sC2 : CallStack where
  depth := 1
  max_depth := 2
  func_ids := fun _ => 0
  func_res := fun _ => 0
  func_lat := fun _ => 0
  is_err := true
  saved_depth := 0
  saved_max_depth := 0
  saved_ids := fun _ => 0
  saved_res := fun _ => 0
  saved_lat := fun _ => 0
  kstack_sz := 0

/-- C2 (counterexample): the claim marks a primary frame open exactly when
i ≥ the snapshot's live depth and finished when i < depth.  The source
(`filter_fstack`, line 854) sets `finished = (i >= s->depth)`: on an event
with depth 1 and max_depth 2 the produced flags are [false, true] — frame 0
(i < depth) is the open one and frame 1 (i ≥ depth) the finished one,
opposite to the claim at both indices. -/
theorem C2_counterexample :
    (filter_fstack ffZero sC2).map FstackItem.finished = [false, true] := by
  decide

/-- C2 (amended): in the logical frame extraction, a primary frame at index
i is marked finished exactly when i ≥ the snapshot's live depth, and open
(no result yet, value pending) when i < depth. -/
theorem C2_theorem (ff : Nat → FuncFlags) (s : CallStack) (i : Nat)
    (h : i < s.max_depth) :
    (filter_fstack ff s)[i]?.map FstackItem.finished = some (decide (s.depth ≤ i)) := by
  unfold filter_fstack
  split
  · rw [List.getElem?_map, List.getElem?_range h]
    rfl
  · dsimp only
    rw [List.getElem?_append_left (by simpa using h), List.getElem?_map,
      List.getElem?_range h]
    rfl

/-- C2 (witness): instantiation of the amended claim at the concrete event
`sC2` and index 1. -/
theorem C2_theorem_witness :
    (filter_fstack ffZero sC2)[1]?.map FstackItem.finished = some (decide (sC2.depth ≤ 1)) :=
  C2_theorem ffZero sC2 1 (by decide)

/-- C9: the errno-bitset membership test first replaces a negative value by
its absolute value, returns false (no match) whenever that absolute value is
≥ MAX_ERR_CNT, and consequently the bitset word index `|err| / 64` used for
an in-range lookup is always within the `MAX_ERR_CNT / 64` words of the
mask. -/
theorem C9_theorem (mask : Nat → Nat) (err : Int) :
    (is_err_in_mask mask err = is_err_in_mask mask (Int.ofNat err.natAbs)) ∧
    (MAX_ERR_CNT ≤ err.natAbs → is_err_in_mask mask err = false) ∧
    (err.natAbs < MAX_ERR_CNT → err.natAbs / 64 < MAX_ERR_CNT / 64) := by
  refine ⟨?_, ?_, ?_⟩
  · simp [is_err_in_mask, Int.natAbs_abs]
  · intro h
    simp [is_err_in_mask, h]
  · intro h
    unfold MAX_ERR_CNT at *
    omega

/-- C9 (witness): instantiation at an all-ones mask and the out-of-range
error value -5000: even with every bit set the test reports no match. -/
theorem C9_theorem_witness :
    MAX_ERR_CNT ≤ (-5000 : Int).natAbs ∧
    is_err_in_mask (fun _ => 2 ^ 64 - 1) (-5000) = false :=
  ⟨by decide, (C9_theorem (fun _ => 2 ^ 64 - 1) (-5000)).2.1 (by decide)⟩

/-- A consumer configuration with an error filter configured and
success-stack emission enabled. -/
def envC10 : Env where
  has_error_filter := true
  allow_error_cnt := 1
  allow_error_mask := fun _ => 0
  deny_error_mask := fun _ => 0
  emit_success_stacks := true

/-- C10: for every decoded event whose error flag is false, the event
handler's drop/report decision equals the success-stack-emission setting
alone — it produces no output unless success-stack emission is configured,
and the allow/deny error filter (consulted only when the error flag is
true) never suppresses such a success stack. -/
theorem C10_theorem (env : Env) (ff : Nat → FuncFlags) (s : CallStack)
    (h : s.is_err = false) :
    handle_event_decision env ff s = env.emit_success_stacks := by
  unfold handle_event_decision
  cases he : env.emit_success_stacks with
  | false => rw [if_pos ⟨h, rfl⟩]
  | true => rw [if_neg (by simp), if_neg (by simp [h])]

/-- C10 (witness): instantiation at a success event and a configuration
with an error filter present and success emission on: the event is shown. -/
theorem C10_theorem_witness :
    handle_event_decision envC10 ffZero zeroStack = envC10.emit_success_stacks :=
  C10_theorem envC10 ffZero zeroStack rfl

/-- A consumer configuration whose error filter allows exactly errno 2
(bit 2 of word 0 of the allow mask, as `-x ENOENT` would set). -/
def envC3 : Env where
  has_error_filter := true
  allow_error_cnt := 1
  allow_error_mask := fun w => if w = 0 then 4 else 0
  deny_error_mask := fun _ => 0
  emit_success_stacks := false

/-- A reconstructed stack with a contiguous stitched segment
(max_depth + 1 = saved_depth = 2): the single primary frame returned 0
(ineligible), and the stitched frame at index 1 has saved result
0xFFFFFFFE (-2, ENOENT) while the primary result array holds 0 at that
index. -/
def sC3 : CallStack where
  depth := 0
  max_depth := 1
  func_ids := fun _ => 0
  func_res := fun _ => 0
  func_lat := fun _ => 0
  is_err := true
  saved_depth := 2
  saved_max_depth := 2
  saved_ids := fun _ => 1
  saved_res := fun _ => 0xfffffffe
  saved_lat := fun _ => 0
  kstack_sz := 0

/-- C3 (code bug): the error filter is claimed to test each eligible
stitched frame on that frame's own saved result.  The source's stitched
loop (`retsnoop.c` line 815) reads `s->func_res[i]` — the primary result
array — instead of `s->saved_res[i]`, although it takes the function id
from `saved_ids[i]` and although the parallel stitched loop of
`filter_fstack` reads `saved_res[i]`.  On `sC3` the stitched frame's own
saved result is -2, which is in the allow mask, so the spec's decision is
accept; the source reads the stale primary result 0, finds no eligible
frame, and rejects. -/
theorem C3_theorem :
    should_report_stack envC3 ffZero sC3 = false ∧
    should_report_stack_spec envC3 ffZero sC3 = true ∧
    toInt32 (sC3.saved_res 1) = -2 ∧
    is_err_in_mask envC3.allow_error_mask (-2) = true := by
  decide

/-- A tracking state holding a populated stitched segment
(saved_depth = 3, saved_max_depth = 4) with frame id 7 on top. -/
def sC4 : CallStack where
  depth := 1
  max_depth := 2
  func_ids := fun _ => 7
  func_res := fun _ => 0
  func_lat := fun _ => 0
  is_err := true
  saved_depth := 3
  saved_max_depth := 4
  saved_ids := fun _ => 7
  saved_res := fun _ => 0
  saved_lat := fun _ => 0
  kstack_sz := 5

/-- C4 (counterexample): the claim states that a mismatching Exit clears,
among other fields, the stitched (saved) segment.  Popping `sC4` with the
non-matching id 9 resets depth, max_depth, the error flag and the raw
stack, but leaves saved_depth = 3 and saved_max_depth = 4 in place. -/
theorem C4_counterexample :
    sC4.depth ≠ 0 ∧
    sC4.func_ids (sC4.depth - 1) ≠ 9 ∧
    (pop_call_stack sC4 9 0 false 0 0).st.saved_depth = 3 ∧
    (pop_call_stack sC4 9 0 false 0 0).st.saved_max_depth = 4 ∧
    (pop_call_stack sC4 9 0 false 0 0).st.depth = 0 ∧
    (pop_call_stack sC4 9 0 false 0 0).emitted.isNone = true := by
  exact ⟨by decide, by decide, rfl, rfl, rfl, rfl⟩

/-- C4 (amended): for every Exit whose function id does not match the id
recorded at frames[depth-1] (depth > 0), the automaton resets depth,
max_depth, the error flag and the captured raw stack to zero, drops the
exit (result false) and emits no event — but the stitched (saved) segment
is NOT cleared: saved_depth and saved_max_depth keep their values. -/
theorem C4_theorem (s : CallStack) (i res : Nat) (failed : Bool) (now : Nat) (kst : Int)
    (h0 : s.depth ≠ 0) (hd : s.depth - 1 < MAX_FSTACK_DEPTH)
    (hid : s.func_ids (s.depth - 1) ≠ i) :
    pop_call_stack s i res failed now kst =
      ⟨{ s with depth := 0, max_depth := 0, is_err := false, kstack_sz := 0 },
        none, false⟩ ∧
    (pop_call_stack s i res failed now kst).st.saved_depth = s.saved_depth ∧
    (pop_call_stack s i res failed now kst).st.saved_max_depth = s.saved_max_depth := by
  have h := pop_mismatch s i res failed now kst h0 hd hid
  exact ⟨h, by rw [h], by rw [h]⟩

/-- C4 (witness): instantiation of the amended claim at `sC4` and exiting
id 9. -/
theorem C4_theorem_witness :
    pop_call_stack sC4 9 0 false 0 0 =
      ⟨{ sC4 with depth := 0, max_depth := 0, is_err := false, kstack_sz := 0 },
        none, false⟩ ∧
    (pop_call_stack sC4 9 0 false 0 0).st.saved_depth = sC4.saved_depth ∧
    (pop_call_stack sC4 9 0 false 0 0).st.saved_max_depth = sC4.saved_max_depth :=
  C4_theorem sC4 9 0 false 0 0 (by decide) (by decide) (by decide)

/-- Whether some eligible frame of the scanned list has its normalized
error in the deny mask. -/
def deny_hit (env : Env) (ff : Nat → FuncFlags) (l : List (Nat × Nat)) : Bool :=
  l.any (fun p =>
    match frame_err_res ff p with
    | none => false
    | some r => is_err_in_mask env.deny_error_mask r)

/-- Whether some eligible frame of the scanned list has its normalized
error in the allow mask. -/
def allow_hit (env : Env) (ff : Nat → FuncFlags) (l : List (Nat × Nat)) : Bool :=
  l.any (fun p =>
    match frame_err_res ff p with
    | none => false
    | some r => is_err_in_mask env.allow_error_mask r)

theorem scanStack_eq (env : Env) (ff : Nat → FuncFlags) :
    ∀ (l : List (Nat × Nat)) (a : Bool),
      scanStack env ff l a = (!(deny_hit env ff l) && (a || allow_hit env ff l)) := by
  intro l
  induction l with
  | nil => intro a; simp [scanStack, deny_hit, allow_hit]
  | cons p rest ih =>
    intro a
    cases hfr : frame_err_res ff p with
    | none =>
      simp only [scanStack, deny_hit, allow_hit, List.any_cons, hfr]
      rw [ih a]
      rfl
    | some r =>
      by_cases hd : is_err_in_mask env.deny_error_mask r = true
      · simp [scanStack, deny_hit, allow_hit, hfr, hd]
      · have hd' : is_err_in_mask env.deny_error_mask r = false := by
          simpa using hd
        simp [scanStack, deny_hit, allow_hit, hfr, hd', ih, Bool.or_assoc]

theorem bit_test_eq_testBit (m j : Nat) :
    decide ((m >>> j) &&& 1 = 1) = Nat.testBit m j := by
  rw [Nat.and_one_is_mod, Nat.shiftRight_eq_div_pow, Nat.testBit_to_div_mod]

/-- C5: the error filtering policy: (1) with no allow/deny rule configured
(the startup configuration), every stack is accepted; (2) the deny bitset
starts empty; (3) the allow bitset starts with every in-range errno allowed;
(4) adding the first explicit allow-rule resets the allow bitset to empty
before setting the rule's bit, switching to an opt-in allow-list that then
contains exactly that errno; (5) with a filter configured, a stack is
accepted iff no eligible frame's error hits the deny set (deny wins) and at
least one eligible frame's error hits the allow set. -/
theorem C5_theorem :
    (∀ (ff : Nat → FuncFlags) (s : CallStack), should_report_stack initEnv ff s = true) ∧
    (∀ e : Int, is_err_in_mask initEnv.deny_error_mask e = false) ∧
    (∀ e : Int, e.natAbs < MAX_ERR_CNT → is_err_in_mask initEnv.allow_error_mask e = true) ∧
    (∀ e0 : Nat, e0 < MAX_ERR_CNT → ∀ e : Int,
      is_err_in_mask (addAllowError initEnv e0).allow_error_mask e =
        decide (e.natAbs = e0)) ∧
    (∀ (env : Env) (ff : Nat → FuncFlags) (s : CallStack),
      env.has_error_filter = true →
      should_report_stack env ff s =
        (!(deny_hit env ff (scanned_frames s)) && allow_hit env ff (scanned_frames s))) := by
  refine ⟨?_, ?_, ?_, ?_, ?_⟩
  · intro ff s
    rfl
  · intro e
    simp [is_err_in_mask, initEnv, Nat.zero_shiftRight]
  · intro e h
    unfold is_err_in_mask
    rw [if_neg (Nat.not_le.mpr h), bit_test_eq_testBit]
    show Nat.testBit (2 ^ 64 - 1) (e.natAbs % 64) = true
    rw [Nat.testBit_two_pow_sub_one]
    simp [Nat.mod_lt]
  · intro e0 h0 e
    by_cases h1 : MAX_ERR_CNT ≤ e.natAbs
    · unfold is_err_in_mask
      rw [if_pos h1]
      have : e.natAbs ≠ e0 := by omega
      simp [this]
    · unfold is_err_in_mask
      rw [if_neg h1, bit_test_eq_testBit]
      have hm : (addAllowError initEnv e0).allow_error_mask =
          Function.update (fun _ => 0) (e0 / 64) (1 <<< (e0 % 64)) := by
        funext w
        simp [addAllowError, initEnv, err_mask_set]
      rw [hm]
      by_cases h2 : e.natAbs / 64 = e0 / 64
      · rw [h2, Function.update_same, Nat.one_shiftLeft, Nat.testBit_two_pow]
        rw [decide_eq_decide]
        omega
      · rw [Function.update_noteq h2, Nat.zero_testBit]
        have : e.natAbs ≠ e0 := by omega
        simp [this]
  · intro env ff s h
    unfold should_report_stack
    rw [if_neg (by simp [h]), scanStack_eq env ff (scanned_frames s) false]
    simp

/-- C5 (witness): after adding the single allow-rule for errno 2 to the
startup configuration, the allow bitset contains exactly errno 2: the
normalized error value -2 matches it. -/
theorem C5_theorem_witness :
    is_err_in_mask (addAllowError initEnv 2).allow_error_mask (-2) =
      decide ((-2 : Int).natAbs = 2) :=
  C5_theorem.2.2.2.1 2 (by decide) (-2)

theorem pop_too_deep (s : CallStack) (i res : Nat) (failed : Bool) (now : Nat) (kst : Int)
    (h0 : s.depth ≠ 0) (h1 : MAX_FSTACK_DEPTH ≤ s.depth - 1) :
    pop_call_stack s i res failed now kst = ⟨s, none, false⟩ := by
  simp [pop_call_stack, h0, h1]

theorem pop_match_inner_max (s : CallStack) (i res : Nat) (failed : Bool) (now : Nat)
    (kst : Int) (h0 : s.depth ≠ 0) (hd : s.depth - 1 < MAX_FSTACK_DEPTH)
    (hid : s.func_ids (s.depth - 1) = i) (hne : s.depth - 1 ≠ 0) :
    (pop_call_stack s i res failed now kst).st.max_depth = s.depth - 1 + 1 ∨
    (pop_call_stack s i res failed now kst).st.max_depth = s.max_depth := by
  simp only [pop_call_stack, if_neg h0, if_neg (Nat.not_le.mpr hd), hid, ne_eq,
    not_true_eq_false, if_false, if_neg hne]
  split <;> simp

/-- An all-IS_ENTRY flags table (every function may start a trace). -/
def ffEntry : Nat → FuncFlags := fun _ => ⟨true, false, false, false, false, false⟩

/-- C6: for every balanced sequence of Enter/Exit operations (matching ids,
nesting ≤ MAX_FSTACK_DEPTH, IS_ENTRY at each top-level entry) containing
`m` top-level pairs, run from a reset automaton state: depth returns to 0
exactly once per top-level pair (`zeros = m`), exactly one event snapshot
is emitted per pair (success or failure alike), and afterwards depth,
max_depth, the error flag, the stitched segment and the raw stack length
are all reset. -/
theorem C6_theorem (ff : Nat → FuncFlags) (m : Nat) (ops : List FOp)
    (hb : Bal ff 0 m ops) (s : CallStack) (hs : is_reset s) :
    (runOps ff s ops).emits.length = m ∧
    (runOps ff s ops).zeros = m ∧
    is_reset (runOps ff s ops).st :=
  runOps_bal_top ff hb rfl s hs

/-- C6 (witness): one top-level entry/exit pair on function id 0 emits one
event, returns to depth 0 once, and leaves the automaton reset. -/
theorem C6_theorem_witness :
    (runOps ffEntry zeroStack [FOp.ent 0, FOp.ext 0 5]).emits.length = 1 ∧
    (runOps ffEntry zeroStack [FOp.ent 0, FOp.ext 0 5]).zeros = 1 ∧
    is_reset (runOps ffEntry zeroStack [FOp.ent 0, FOp.ext 0 5]).st :=
  C6_theorem ffEntry 1 [FOp.ent 0, FOp.ext 0 5]
    (Bal.pair 0 0 0 0 5 [] [] (fun _ => rfl) (by decide) (Bal.nil 1) (Bal.nil 0))
    zeroStack (by decide)

/-- C7: if the automaton holds an unresolved error whose subtree has
completed (`is_err` set and depth ≠ max_depth) and a sibling entry is then
accepted, (1) the frame window about to be clobbered is copied into the
saved holding area before the new id is written (the saved arrays equal the
pre-push primary arrays, spanning exactly [depth, max_depth), while the
primary array now holds the new id at index depth), and (2) as long as no
further stitch occurs, the first event emitted by any subsequent operation
sequence still carries exactly that saved segment. -/
theorem C7_theorem (ff : Nat → FuncFlags) (s : CallStack) (i now : Nat)
    (herr : s.is_err = true) (hne : s.depth ≠ s.max_depth)
    (hent : ¬(s.depth = 0 ∧ (ff (i &&& MAX_FUNC_MASK)).is_entry = false))
    (hd : s.depth < MAX_FSTACK_DEPTH) :
    ((push_call_stack ff s i now).st.saved_ids = s.func_ids ∧
     (push_call_stack ff s i now).st.saved_res = s.func_res ∧
     (push_call_stack ff s i now).st.saved_lat = s.func_lat ∧
     (push_call_stack ff s i now).st.saved_depth = s.depth + 1 ∧
     (push_call_stack ff s i now).st.saved_max_depth = s.max_depth ∧
     (push_call_stack ff s i now).st.func_ids s.depth = i) ∧
    (∀ (ops : List FOp) (e : CallStack),
      (runOps ff (push_call_stack ff s i now).st ops).stitches = 0 →
      (runOps ff (push_call_stack ff s i now).st ops).emits.head? = some e →
      e.saved_ids = s.func_ids ∧ e.saved_res = s.func_res ∧
      e.saved_lat = s.func_lat ∧ e.saved_depth = s.depth + 1 ∧
      e.saved_max_depth = s.max_depth) := by
  have hp : (push_call_stack ff s i now).st.saved_ids = s.func_ids ∧
      (push_call_stack ff s i now).st.saved_res = s.func_res ∧
      (push_call_stack ff s i now).st.saved_lat = s.func_lat ∧
      (push_call_stack ff s i now).st.saved_depth = s.depth + 1 ∧
      (push_call_stack ff s i now).st.saved_max_depth = s.max_depth ∧
      (push_call_stack ff s i now).st.func_ids s.depth = i := by
    simp only [push_call_stack, if_neg hent, if_neg (Nat.not_le.mpr hd),
      if_pos (And.intro hne herr)]
    simp [save_stitch_stack, Function.update_same]
  refine ⟨hp, ?_⟩
  intro ops e hst he
  obtain ⟨m1, m2, m3, m4, m5⟩ :=
    runOps_saved_retained ff ops (push_call_stack ff s i now).st hst e he
  exact ⟨m3.trans hp.1, m4.trans hp.2.1, m5.trans hp.2.2.1,
    m1.trans hp.2.2.2.1, m2.trans hp.2.2.2.2.1⟩

/-- A tracking state holding an unresolved completed error subtree: depth 1,
max_depth 2, error flag set; frame ids are j + 10. -/
def sC7 : CallStack where
  depth := 1
  max_depth := 2
  func_ids := fun j => j + 10
  func_res := fun _ => 0xfffffffe
  func_lat := fun _ => 0
  is_err := true
  saved_depth := 0
  saved_max_depth := 0
  saved_ids := fun _ => 0
  saved_res := fun _ => 0
  saved_lat := fun _ => 0
  kstack_sz := 1

/-- C7 (witness): pushing sibling id 5 onto `sC7` copies the primary frame
window into the saved area before overwriting slot 1 with the new id. -/
theorem C7_theorem_witness :
    (push_call_stack ffEntry sC7 5 0).st.saved_ids = sC7.func_ids ∧
    (push_call_stack ffEntry sC7 5 0).st.saved_res = sC7.func_res ∧
    (push_call_stack ffEntry sC7 5 0).st.saved_lat = sC7.func_lat ∧
    (push_call_stack ffEntry sC7 5 0).st.saved_depth = sC7.depth + 1 ∧
    (push_call_stack ffEntry sC7 5 0).st.saved_max_depth = sC7.max_depth ∧
    (push_call_stack ffEntry sC7 5 0).st.func_ids sC7.depth = 5 :=
  (C7_theorem ffEntry sC7 5 0 rfl (by decide) (by decide) (by decide)).1

/-- C8: every Enter (`push_call_stack`) and every Exit (`pop_call_stack`)
preserves the invariant depth ≤ max_depth ≤ MAX_FSTACK_DEPTH, an Enter
never brings a positive depth back to 0, and an Exit brings a positive
depth to 0 only when it emits an event or the exiting id mismatches the
recorded top-of-stack id. -/
theorem C8_theorem (ff : Nat → FuncFlags) (s : CallStack) (i now res : Nat)
    (failed : Bool) (kst : Int)
    (h : s.depth ≤ s.max_depth ∧ s.max_depth ≤ MAX_FSTACK_DEPTH) :
    ((push_call_stack ff s i now).st.depth ≤ (push_call_stack ff s i now).st.max_depth ∧
     (push_call_stack ff s i now).st.max_depth ≤ MAX_FSTACK_DEPTH) ∧
    ((pop_call_stack s i res failed now kst).st.depth ≤
       (pop_call_stack s i res failed now kst).st.max_depth ∧
     (pop_call_stack s i res failed now kst).st.max_depth ≤ MAX_FSTACK_DEPTH) ∧
    ((push_call_stack ff s i now).st.depth = 0 → s.depth = 0) ∧
    ((pop_call_stack s i res failed now kst).st.depth = 0 →
      s.depth = 0 ∨ (pop_call_stack s i res failed now kst).emitted ≠ none ∨
      s.func_ids (s.depth - 1) ≠ i) := by
  obtain ⟨hI1, hI2⟩ := h
  refine ⟨?_, ?_, ?_, ?_⟩
  · by_cases h1 : s.depth = 0 ∧ (ff (i &&& MAX_FUNC_MASK)).is_entry = false
    · rw [push_rejected ff s i now (Or.inl h1)]
      exact ⟨hI1, hI2⟩
    · by_cases h2 : MAX_FSTACK_DEPTH ≤ s.depth
      · rw [push_rejected ff s i now (Or.inr h2)]
        exact ⟨hI1, hI2⟩
      · obtain ⟨hp1, hp2, -, -, -⟩ := push_accepted_fields ff s i now h1 (by omega)
        rw [hp1, hp2]
        omega
  · by_cases h0 : s.depth = 0
    · rw [pop_depth_zero s i res failed now kst h0]
      exact ⟨hI1, hI2⟩
    · by_cases h1 : MAX_FSTACK_DEPTH ≤ s.depth - 1
      · rw [pop_too_deep s i res failed now kst h0 h1]
        exact ⟨hI1, hI2⟩
      · by_cases h2 : s.func_ids (s.depth - 1) = i
        · by_cases h3 : s.depth - 1 = 0
          · obtain ⟨e, he1, he2, he3, he4, he5, he6, he7, hst1, hst2, hrest⟩ :=
              pop_match_emit s i res failed now kst h0 (by omega) h2 h3
            rw [hst1, hst2]
            omega
          · obtain ⟨hq1, -⟩ := pop_match_inner s i res failed now kst h0 (by omega) h2 h3
            have hmx := pop_match_inner_max s i res failed now kst h0 (by omega) h2 h3
            rw [hq1]
            rcases hmx with hmx | hmx <;> rw [hmx] <;> omega
        · rw [pop_mismatch s i res failed now kst h0 (by omega) h2]
          exact ⟨Nat.le_refl 0, Nat.zero_le _⟩
  · intro hz
    by_cases h1 : s.depth = 0 ∧ (ff (i &&& MAX_FUNC_MASK)).is_entry = false
    · rw [push_rejected ff s i now (Or.inl h1)] at hz
      exact hz
    · by_cases h2 : MAX_FSTACK_DEPTH ≤ s.depth
      · rw [push_rejected ff s i now (Or.inr h2)] at hz
        exact hz
      · obtain ⟨hp1, -⟩ := push_accepted_fields ff s i now h1 (by omega)
        rw [hp1] at hz
        omega
  · intro hz
    by_cases h0 : s.depth = 0
    · exact Or.inl h0
    · by_cases h1 : MAX_FSTACK_DEPTH ≤ s.depth - 1
      · rw [pop_too_deep s i res failed now kst h0 h1] at hz
        exact Or.inl hz
      · by_cases h2 : s.func_ids (s.depth - 1) = i
        · by_cases h3 : s.depth - 1 = 0
          · obtain ⟨e, he1, -⟩ :=
              pop_match_emit s i res failed now kst h0 (by omega) h2 h3
            exact Or.inr (Or.inl (by rw [he1]; simp))
          · obtain ⟨hq1, -⟩ := pop_match_inner s i res failed now kst h0 (by omega) h2 h3
            rw [hq1] at hz
            omega
        · exact Or.inr (Or.inr h2)

/-- C8 (witness): instantiation at the concrete tracking state `sC4`
(depth 1, max_depth 2). -/
theorem C8_theorem_witness :
    ((push_call_stack ffEntry sC4 3 0).st.depth ≤
       (push_call_stack ffEntry sC4 3 0).st.max_depth ∧
     (push_call_stack ffEntry sC4 3 0).st.max_depth ≤ MAX_FSTACK_DEPTH) ∧
    ((pop_call_stack sC4 3 7 false 0 0).st.depth ≤
       (pop_call_stack sC4 3 7 false 0 0).st.max_depth ∧
     (pop_call_stack sC4 3 7 false 0 0).st.max_depth ≤ MAX_FSTACK_DEPTH) ∧
    ((push_call_stack ffEntry sC4 3 0).st.depth = 0 → sC4.depth = 0) ∧
    ((pop_call_stack sC4 3 7 false 0 0).st.depth = 0 →
      sC4.depth = 0 ∨ (pop_call_stack sC4 3 7 false 0 0).emitted ≠ none ∨
      sC4.func_ids (sC4.depth - 1) ≠ 3) :=
  C8_theorem ffEntry sC4 3 0 7 false 0 (by decide)
